import Mathlib

/-!
Verification of the meteo radar/satellite alignment pipeline.

Shallow embedding of the core image-processing and alignment functions of
the repository (scripts/4_georeference.py, scripts/7_extract_water_vapor.py,
scripts/8_enhanced_meteosat.py, scripts/9_enhanced_weather_listener.py),
with theorems settling the specification claims about them.
-/

namespace Meteo

/-- An RGBA pixel as produced by PIL after conversion with RGBA mode: four
8-bit channels.  Channel values are natural numbers (the code only ever
produces values in 0..255). -/
structure Pixel where
  r : Nat
  g : Nat
  b : Nat
  a : Nat
  deriving DecidableEq, Repr

/-- An in-memory image: dimensions plus a pixel lookup function.
Here `pix x y` is the pixel at column x, row y, mirroring the PIL call
getpixel((x, y)). -/
structure Image where
  width : Nat
  height : Nat
  pix : Nat → Nat → Pixel

/-- The marker (yellow) color test used by interpolate_yellow_pixels in
scripts/4_georeference.py line 73 and scripts/9_enhanced_weather_listener.py
line 269: in Python, r > 80 and g > 80 and b < 50 and abs(r-g) < 30. -/
def isYellow (p : Pixel) : Prop :=
  80 < p.r ∧ 80 < p.g ∧ p.b < 50 ∧ ((p.r : Int) - (p.g : Int)).natAbs < 30

instance (p : Pixel) : Decidable (isYellow p) := by
  unfold isYellow
  exact inferInstance

/-- The eight (dx, dy) neighbor offsets visited by the nested loops
for dy in [-1,0,1]: for dx in [-1,0,1], skipping (0, 0)
(scripts/4_georeference.py lines 83-87). -/
def neighborOffsets : List (Int × Int) :=
  [(-1, -1), (0, -1), (1, -1), (-1, 0), (1, 0), (-1, 1), (0, 1), (1, 1)]

/-- The in-bounds, non-yellow neighbors collected for pixel (x, y)
(scripts/4_georeference.py lines 82-95): for each offset the bounds check
0 <= nx < width and 0 <= ny < height is applied, and neighbors that are
themselves yellow-classified are skipped. -/
def nonYellowNeighbors (img : Image) (x y : Nat) : List Pixel :=
  neighborOffsets.filterMap fun d =>
    if 0 ≤ (x : Int) + d.1 ∧ (x : Int) + d.1 < (img.width : Int) ∧
       0 ≤ (y : Int) + d.2 ∧ (y : Int) + d.2 < (img.height : Int) then
      if isYellow (img.pix ((x : Int) + d.1).toNat ((y : Int) + d.2).toNat) then none
      else some (img.pix ((x : Int) + d.1).toNat ((y : Int) + d.2).toNat)
    else none

/-- Sum of one channel over a list of pixels. -/
def channelSum (f : Pixel → Nat) (l : List Pixel) : Nat :=
  (l.map f).sum

/-- Channel-wise average with Python integer division, as in
sum(p[0] for p in neighbors) // len(neighbors)
(scripts/4_georeference.py lines 99-102).  All pixels are RGBA after the
convert call, so the alpha channel is always averaged as well. -/
def avgPixel (l : List Pixel) : Pixel :=
  ⟨channelSum Pixel.r l / l.length, channelSum Pixel.g l / l.length,
   channelSum Pixel.b l / l.length, channelSum Pixel.a l / l.length⟩

/-- The value written for a yellow pixel at (x, y): the channel-wise
average of its non-yellow in-bounds neighbors, or fully transparent
(0, 0, 0, 0) if there are none (scripts/4_georeference.py lines 97-108). -/
def interpValue (img : Image) (x y : Nat) : Pixel :=
  if (nonYellowNeighbors img x y).isEmpty then ⟨0, 0, 0, 0⟩
  else avgPixel (nonYellowNeighbors img x y)

/-- Write one pixel, as in the PIL call putpixel((x, y), v). -/
def putpixel (res : Image) (x y : Nat) (v : Pixel) : Image :=
  { res with pix := fun c d => if c = x ∧ d = y then v else res.pix c d }

/-- One iteration of the interpolation loop body at coordinate c:
classification and all neighbor reads use the unmodified source image src,
while the write goes to the separate result image res
(scripts/4_georeference.py lines 64-108: result = img.copy() and all
getpixel calls are on img, all putpixel calls on result). -/
def interpStep (src : Image) (res : Image) (c : Nat × Nat) : Image :=
  if isYellow (src.pix c.1 c.2) then putpixel res c.1 c.2 (interpValue src c.1 c.2)
  else res

/-- The scan order of the loops: for y in range(height): for x in range(width). -/
def scanOrder (w h : Nat) : List (Nat × Nat) :=
  (List.range h).flatMap fun y => (List.range w).map fun x => (x, y)

/-- The interpolation loop run over an arbitrary coordinate order, starting
from the unmodified copy of the input. -/
def interpLoop (img : Image) (order : List (Nat × Nat)) : Image :=
  order.foldl (interpStep img) img

/-- interpolate_yellow_pixels (scripts/4_georeference.py lines 38-111,
identically scripts/9_enhanced_weather_listener.py lines 256-300). -/
def interpolate_yellow_pixels (img : Image) : Image :=
  interpLoop img (scanOrder img.width img.height)

/-- Agreement of two images on the 3x3 window around (x, y) (restricted to
the domain of the first image). -/
def agreeNear (img1 img2 : Image) (x y : Nat) : Prop :=
  ∀ nx, nx < img1.width → ∀ ny, ny < img1.height →
    (nx : Int) ≤ (x : Int) + 1 → (x : Int) ≤ (nx : Int) + 1 →
    (ny : Int) ≤ (y : Int) + 1 → (y : Int) ≤ (ny : Int) + 1 →
    img1.pix nx ny = img2.pix nx ny

/-- The header text and logo rectangles blanked by clean_radar_image
(scripts/4_georeference.py lines 157-169, scripts/9_enhanced_weather_listener.py
lines 217-228): x in range(min(158, width)), y in range(min(14, height))
for the header text, and x in range(392, min(480, width)),
y in range(min(46, height)) for the logo. -/
def inMaskRegion (img : Image) (x y : Nat) : Prop :=
  (x < min 158 img.width ∧ y < min 14 img.height) ∨
    (392 ≤ x ∧ x < min 480 img.width ∧ y < min 46 img.height)

instance (img : Image) (x y : Nat) : Decidable (inMaskRegion img x y) := by
  unfold inMaskRegion
  exact inferInstance

/-- Step 1 and 2 of clean_radar_image: every pixel of the header text and
logo rectangles is written fully transparent. -/
def maskHeaderLogo (img : Image) : Image :=
  { img with pix := fun x y =>
      if inMaskRegion img x y then ⟨0, 0, 0, 0⟩ else img.pix x y }

/-- The footer boundary computed by analyze_image_structure
(scripts/4_georeference.py lines 27-36): AEMET radar images have exactly a
50 pixel footer, so the data area ends at height - 50. -/
def footerStart (height : Nat) : Nat :=
  height - 50

/-- Step 3 of clean_radar_image: crop((0, 0, width, height - 50)) removes
the bottom 50 footer rows; pixel coordinates of the retained top region are
unchanged. -/
def cropFooter (img : Image) : Image :=
  ⟨img.width, footerStart img.height, img.pix⟩

/-- The background color test of clean_radar_image (scripts/4_georeference.py
lines 187-192): exact black (0,0,0) or exact mid-grey (127,127,127),
tested on the RGB channels only. -/
def isBackground (p : Pixel) : Prop :=
  (p.r = 0 ∧ p.g = 0 ∧ p.b = 0) ∨ (p.r = 127 ∧ p.g = 127 ∧ p.b = 127)

instance (p : Pixel) : Decidable (isBackground p) := by
  unfold isBackground
  exact inferInstance

/-- Step 4 of clean_radar_image (scripts/4_georeference.py lines 179-198):
every background-colored pixel becomes fully transparent (0,0,0,0), all
other pixels pass through unchanged. -/
def makeBackgroundTransparent (img : Image) : Image :=
  { img with pix := fun x y =>
      if isBackground (img.pix x y) then ⟨0, 0, 0, 0⟩ else img.pix x y }

/-- clean_radar_image (scripts/4_georeference.py lines 113-211,
scripts/9_enhanced_weather_listener.py lines 209-254): mask header text and
logo, crop the footer, interpolate yellow marker pixels, then make the
background colors transparent. -/
def clean_radar_image (img : Image) : Image :=
  makeBackgroundTransparent (interpolate_yellow_pixels (cropFooter (maskHeaderLogo img)))

/-- A bounding box, with rational coordinates standing for the floating
point coordinates of the code. -/
structure BBox where
  min_x : ℚ
  max_x : ℚ
  min_y : ℚ
  max_y : ℚ
  deriving DecidableEq, Repr

/-- The radar bounds read from the radar geotransform in
get_radar_extent_for_geostationary (scripts/7_extract_water_vapor.py lines
45-52): min_x = gt[0], max_y = gt[3], max_x = min_x + gt[1] * cols,
min_y = max_y + gt[5] * rows. -/
def radarBounds (gt0 gt1 gt3 gt5 : ℚ) (cols rows : Nat) : BBox :=
  { min_x := gt0, max_x := gt0 + gt1 * (cols : ℚ),
    min_y := gt3 + gt5 * (rows : ℚ), max_y := gt3 }

/-- get_radar_extent_for_geostationary (scripts/7_extract_water_vapor.py
lines 22-87, scripts/9_enhanced_weather_listener.py lines 414-449),
parameterized by the coordinate transformation T supplied by
osr.CoordinateTransformation: the code transforms the two corners
(min_x, min_y) and (max_x, max_y) and returns the min/max envelope of those
two transformed points. -/
def get_radar_extent_for_geostationary (T : ℚ × ℚ → ℚ × ℚ)
    (gt0 gt1 gt3 gt5 : ℚ) (cols rows : Nat) : BBox :=
  let b := radarBounds gt0 gt1 gt3 gt5 cols rows
  let c1 := T (b.min_x, b.min_y)
  let c2 := T (b.max_x, b.max_y)
  { min_x := min c1.1 c2.1, max_x := max c1.1 c2.1,
    min_y := min c1.2 c2.2, max_y := max c1.2 c2.2 }

/-- The envelope described by the specification (section 4.3): transform all
four corners of the box individually and return the min/max envelope of the
four transformed points.  Stated from the spec wording, for comparison with
the definition taken from the code. -/
def fourCornerEnvelope (T : ℚ × ℚ → ℚ × ℚ) (b : BBox) : BBox :=
  let c1 := T (b.min_x, b.min_y)
  let c2 := T (b.min_x, b.max_y)
  let c3 := T (b.max_x, b.min_y)
  let c4 := T (b.max_x, b.max_y)
  { min_x := min (min c1.1 c2.1) (min c3.1 c4.1),
    max_x := max (max c1.1 c2.1) (max c3.1 c4.1),
    min_y := min (min c1.2 c2.2) (min c3.2 c4.2),
    max_y := max (max c1.2 c2.2) (max c3.2 c4.2) }

/-- A 45 degree rotation-like planar map, used as a concrete coordinate
transformation that does not preserve axis alignment. -/
def shear45 : ℚ × ℚ → ℚ × ℚ :=
  fun c => (c.1 + c.2, c.2 - c.1)

/-- The linear scaling performed by gdal_translate for one scaleParams
entry [srcMin, srcMax, dstMin, dstMax]: the source range is mapped linearly
onto the destination range (modelled from the documented GDAL -scale
behavior; the code invokes it in scripts/7_extract_water_vapor.py line 173). -/
def gdalScale (srcMin srcMax dstMin dstMax v : ℚ) : ℚ :=
  (v - srcMin) * (dstMax - dstMin) / (srcMax - srcMin) + dstMin

/-- The per-value calibration of extract_water_vapor_bands
(scripts/7_extract_water_vapor.py line 173):
scaleParams=[[0, 1023, offset, offset + slope * 1023]]. -/
def calibrateValue (offset slope v : ℚ) : ℚ :=
  gdalScale 0 1023 offset (offset + slope * 1023) v

/-- Elementwise calibration of a single-band raster, represented as the
list of its raw values. -/
def calibrateBand (offset slope : ℚ) (raw : List ℚ) : List ℚ :=
  raw.map (calibrateValue offset slope)

/-- The water vapor band numbers processed by extract_water_vapor_bands:
band 5 (WV 6.2um) and band 6 (WV 7.3um)
(scripts/7_extract_water_vapor.py lines 142-145). -/
def wvBandNumbers : List Nat :=
  [5, 6]

/-- extract_water_vapor_bands (scripts/7_extract_water_vapor.py lines
127-205; the variant extract_wv_bands in
scripts/9_enhanced_weather_listener.py lines 485-536 has the same
skip-and-continue loop but performs no calibration at all).  cal gives the
calibration pair parsed from the product metadata for a band number, or
none when the metadata key is absent or unparsable; bands gives the raw
single-band raster.  For a band with no calibration the code prints a
warning and continues to the next band, producing no output entry and no
error; for a calibrated band the calibrated raster is produced (the
subsequent gdal.Warp reprojection is external to the calibration).  The
return value is the list of produced (band, calibrated raster) outputs. -/
def extract_water_vapor_bands (cal : Nat → Option (ℚ × ℚ))
    (bands : Nat → List ℚ) : List (Nat × List ℚ) :=
  wvBandNumbers.filterMap fun b =>
    match cal b with
    | none => none
    | some p => some (b, calibrateBand p.1 p.2 (bands b))

/-- A calibration table that has parameters for band 6 only. -/
def calOnly6 : Nat → Option (ℚ × ℚ) :=
  fun b => if b = 6 then some (1, 2) else none

/-- A ground control point: pixel coordinates and projected coordinates
(scripts/4_georeference.py line 227: pixel_x, pixel_y, web_mercator_x,
web_mercator_y). -/
structure ControlPoint where
  px : ℚ
  py : ℚ
  mx : ℚ
  my : ℚ
  deriving DecidableEq, Repr

/-- The error kinds of the polynomial warp fit (specification section 7). -/
inductive GCPFitError where
  | InsufficientControlPoints
  | IllConditionedFit
  deriving DecidableEq, Repr

/-- The number of coefficients of a bivariate polynomial of the given
degree: (degree + 1) * (degree + 2) / 2. -/
def polyTermCount (degree : Nat) : Nat :=
  (degree + 1) * (degree + 2) / 2

/-- The monomial row of a bivariate polynomial of the given degree,
evaluated at (x, y): all monomials x^(t-j) * y^j for t up to the degree. -/
def polyMonomials (degree : Nat) (x y : ℚ) : List ℚ :=
  (List.range (degree + 1)).flatMap fun t =>
    (List.range (t + 1)).map fun j => x ^ (t - j) * y ^ j

/-- Modelled from the spec: the degree-3 least-squares polynomial fit of the
GCPWarper is performed by the external gdalwarp -order 3 invocation
(scripts/4_georeference.py lines 288-320), not by code in this repository.
Per specification section 4.2 the fit fails with InsufficientControlPoints
when fewer than (degree+1)(degree+2)/2 control points are supplied; on
success the design matrix of monomial rows is built (the least-squares
solve itself, and the IllConditionedFit failure on a singular normal
matrix, are not modelled further). -/
def fitPolynomial (degree : Nat) (gcps : List ControlPoint) :
    Except GCPFitError (List (List ℚ)) :=
  if gcps.length < polyTermCount degree then
    Except.error GCPFitError.InsufficientControlPoints
  else
    Except.ok (gcps.map fun g => polyMonomials degree g.px g.py)

/-- The 39 QGIS-measured ground control points hardcoded in
create_geotiff_qgis_method (scripts/4_georeference.py lines 228-268). -/
def qgis_gcps : List ControlPoint :=
  [⟨131.774, 336.906, 65931.872, 4949862.395⟩,
   ⟨137.66, 99.623, 73741.13, 5265877.036⟩,
   ⟨200.377, 223.472, 18555.707, 4973290.169⟩,
   ⟨234.113, 142.189, 204416.047, 5207567.909⟩,
   ⟨262.31, 250.326, 238386.32, 5056979.384⟩,
   ⟨111.776, 240.625, 36386.846, 5073769.289⟩,
   ⟨116.125, 256.682, 42113.635, 5054506.453⟩,
   ⟨100.403, 280.433, 22850.799, 5023790.038⟩,
   ⟨126.161, 340.646, 56170.3, 4942053.137⟩,
   ⟨66.951, 427.955, -21401.663, 4825434.885⟩,
   ⟨407.156, 385.472, 425808.512, 4874372.901⟩,
   ⟨282.046, 441.002, 260772.859, 4808254.517⟩,
   ⟨377.718, 422.938, 384159.136, 4825955.502⟩,
   ⟨345.27, 474.788, 340947.908, 4759837.117⟩,
   ⟨220.829, 264.711, 183200.896, 5042532.257⟩,
   ⟨312.822, 210.519, 307628.407, 5108650.641⟩,
   ⟨355.891, 397.138, 355004.572, 4861357.471⟩,
   ⟨447.716, 411.69, 476828.997, 4839491.549⟩,
   ⟨342.343, 124.547, 349798.4, 5227871.98⟩,
   ⟨354.762, 135.587, 365416.916, 5212253.464⟩,
   ⟨351.5, 145.12, 362293.213, 5197676.183⟩,
   ⟨342.218, 143.364, 349798.4, 5201841.12⟩,
   ⟨348.364, 167.449, 358128.276, 5168521.619⟩,
   ⟨341.339, 190.908, 347715.932, 5138325.822⟩,
   ⟨275.607, 187.019, 258169.773, 5143531.994⟩,
   ⟨14.933, 409.933, -103138.563, 4839491.549⟩,
   ⟨51.312, 324.631, -42746.968, 4959233.505⟩,
   ⟨68.122, 311.083, -20881.046, 4980058.193⟩,
   ⟨35.506, 248.361, -65654.125, 5065439.414⟩,
   ⟨66.867, 221.014, -24004.749, 5103965.087⟩,
   ⟨20.202, 268.432, -84396.344, 5037065.776⟩,
   ⟨9.163, 270.439, -99233.934, 5034202.382⟩,
   ⟨2.263, 270.314, -108865.353, 5034202.382⟩,
   ⟨11.17, 175.478, -98713.317, 5161753.596⟩,
   ⟨28.23, 180.997, -73723.692, 5154985.572⟩,
   ⟨9.665, 145.371, -108344.735, 5193250.936⟩,
   ⟨23.965, 75.248, -82053.567, 5300237.771⟩,
   ⟨38.391, 90.552, -61749.496, 5278892.466⟩,
   ⟨112.529, 96.573, 39770.858, 5270562.591⟩]

/-- A five-point control point set, below every fit threshold. -/
def gcps5 : List ControlPoint :=
  [⟨0, 0, 0, 0⟩, ⟨1, 0, 1, 0⟩, ⟨0, 1, 0, 1⟩, ⟨1, 1, 1, 1⟩, ⟨2, 1, 2, 1⟩]

/-- A crop window in the projWin convention of gdal.Translate:
[ulx, uly, lrx, lry] in the source projection. -/
structure ProjWin where
  ulx : ℚ
  uly : ℚ
  lrx : ℚ
  lry : ℚ
  deriving DecidableEq, Repr

/-- subset_meteosat_data (scripts/7_extract_water_vapor.py lines 89-125,
scripts/9_enhanced_weather_listener.py lines 460-483): a 50000 meter buffer
is added on every side of the extent, and the crop window is passed as
projWin=[min_x, max_y, max_x, min_y] on the buffered values. -/
def subset_meteosat_data (extent : BBox) : ProjWin :=
  { ulx := extent.min_x - 50000, uly := extent.max_y + 50000,
    lrx := extent.max_x + 50000, lry := extent.min_y - 50000 }

/-- The composite layer kinds of the enhanced visualization. -/
inductive LayerKind where
  | satellite
  | radarRaster
  | vectorPolygons
  | vectorPoints
  | vectorLabels
  deriving DecidableEq, Repr

/-- One artist added to the matplotlib axes: its layer kind and its zorder. -/
structure DrawCall where
  kind : LayerKind
  zorder : Nat
  deriving DecidableEq, Repr

/-- Matplotlib default zorder for images (AxesImage), per the documented
artist zorder table. -/
def imageZOrder : Nat := 0

/-- Matplotlib default zorder for patch collections (polygon plots). -/
def patchCollectionZOrder : Nat := 1

/-- Matplotlib default zorder for Line2D artists (the city point markers). -/
def lineZOrder : Nat := 2

/-- Matplotlib default zorder for text artists (the city labels). -/
def textZOrder : Nat := 3

/-- The artists added by create_enhanced_image in
scripts/8_enhanced_meteosat.py (lines 169-336), in source order: the water
vapor imshow (line 220), the province boundary polygon plot (line 228), the
per-city point plots and text labels (lines 249-256; collapsed to one entry
per kind, since all points share one zorder and all labels another), and
the radar imshow (line 281 or 300).  None of the calls passes an explicit
zorder, so each artist gets the matplotlib default for its type. -/
def drawCalls_8 : List DrawCall :=
  [⟨LayerKind.satellite, imageZOrder⟩,
   ⟨LayerKind.vectorPolygons, patchCollectionZOrder⟩,
   ⟨LayerKind.vectorPoints, lineZOrder⟩,
   ⟨LayerKind.vectorLabels, textZOrder⟩,
   ⟨LayerKind.radarRaster, imageZOrder⟩]

/-- The artists added by create_enhanced_image in
scripts/9_enhanced_weather_listener.py (lines 538-603), in source order:
water vapor imshow (line 564), radar imshow (line 572), province boundary
polygon plot (line 580), city point plots and text labels (lines 596-599).
No call passes an explicit zorder. -/
def drawCalls_9 : List DrawCall :=
  [⟨LayerKind.satellite, imageZOrder⟩,
   ⟨LayerKind.radarRaster, imageZOrder⟩,
   ⟨LayerKind.vectorPolygons, patchCollectionZOrder⟩,
   ⟨LayerKind.vectorPoints, lineZOrder⟩,
   ⟨LayerKind.vectorLabels, textZOrder⟩]

/-- Stable insertion into a zorder-sorted list: an element is placed before
the first element of strictly larger or equal zorder only when inserted
earlier in addition order (see renderOrder). -/
def insertByZOrder (c : DrawCall) : List DrawCall → List DrawCall
  | [] => [c]
  | d :: ds => if c.zorder ≤ d.zorder then c :: d :: ds else d :: insertByZOrder c ds

/-- The order in which matplotlib renders the artists: increasing zorder,
ties broken by addition order (a stable sort of the addition list by
zorder, modelled from the documented matplotlib drawing rule). -/
def renderOrder (calls : List DrawCall) : List LayerKind :=
  (calls.foldr insertByZOrder []).map DrawCall.kind

/-- A 3x3 test image: one yellow cross-shaped region surrounded by strong
red and green pixels. -/
def ex3 : Image :=
  ⟨3, 3, fun x y =>
    match x, y with
    | 0, 0 => ⟨200, 0, 0, 255⟩
    | 1, 0 => ⟨0, 255, 0, 255⟩
    | 2, 0 => ⟨200, 0, 0, 255⟩
    | 0, 1 => ⟨0, 255, 0, 255⟩
    | 1, 1 => ⟨100, 100, 0, 255⟩
    | 2, 1 => ⟨100, 100, 0, 255⟩
    | 0, 2 => ⟨200, 0, 0, 255⟩
    | 1, 2 => ⟨0, 255, 0, 255⟩
    | _, _ => ⟨200, 0, 255, 255⟩⟩

/-- A 2x2 test image with no yellow pixels. -/
def exBlue : Image :=
  ⟨2, 2, fun _ _ => ⟨10, 20, 200, 255⟩⟩

/-- A 1x65 test image with no background and no yellow pixels. -/
def exClean : Image :=
  ⟨1, 65, fun _ _ => ⟨10, 20, 30, 255⟩⟩

theorem interpStep_width (src res : Image) (c : Nat × Nat) :
    (interpStep src res c).width = res.width := by
  unfold interpStep putpixel
  split <;> rfl

theorem interpStep_height (src res : Image) (c : Nat × Nat) :
    (interpStep src res c).height = res.height := by
  unfold interpStep putpixel
  split <;> rfl

theorem interpLoop_width (img res : Image) (order : List (Nat × Nat)) :
    (order.foldl (interpStep img) res).width = res.width := by
  induction order generalizing res with
  | nil => rfl
  | cons c rest ih => rw [List.foldl_cons, ih, interpStep_width]

theorem interpLoop_height (img res : Image) (order : List (Nat × Nat)) :
    (order.foldl (interpStep img) res).height = res.height := by
  induction order generalizing res with
  | nil => rfl
  | cons c rest ih => rw [List.foldl_cons, ih, interpStep_height]

theorem interpolate_width (img : Image) :
    (interpolate_yellow_pixels img).width = img.width :=
  interpLoop_width img img _

theorem interpolate_height (img : Image) :
    (interpolate_yellow_pixels img).height = img.height :=
  interpLoop_height img img _

/-- The pixel produced by one loop iteration: it is rewritten exactly when
(x, y) is the visited coordinate and it is classified yellow in the source. -/
theorem interpStep_pix (src res : Image) (c : Nat × Nat) (x y : Nat) :
    (interpStep src res c).pix x y =
      if (x, y) = c ∧ isYellow (src.pix c.1 c.2) then interpValue src c.1 c.2
      else res.pix x y := by
  unfold interpStep
  by_cases hcy : isYellow (src.pix c.1 c.2)
  · rw [if_pos hcy]
    show (if x = c.1 ∧ y = c.2 then interpValue src c.1 c.2 else res.pix x y) = _
    by_cases hxy : x = c.1 ∧ y = c.2
    · rw [if_pos hxy, if_pos ⟨Prod.ext_iff.2 ⟨hxy.1, hxy.2⟩, hcy⟩]
    · rw [if_neg hxy,
        if_neg (fun hcon => hxy ⟨congrArg Prod.fst hcon.1, congrArg Prod.snd hcon.1⟩)]
  · rw [if_neg hcy, if_neg (fun hcon => hcy hcon.2)]

/-- The pixel produced by the loop at (x, y): it is rewritten exactly when
(x, y) is visited and classified yellow in the source, and the written
value depends only on the source image. -/
theorem interpLoop_pix (src res : Image) (order : List (Nat × Nat)) (x y : Nat) :
    (order.foldl (interpStep src) res).pix x y =
      if (x, y) ∈ order ∧ isYellow (src.pix x y) then interpValue src x y
      else res.pix x y := by
  induction order generalizing res with
  | nil => simp
  | cons c rest ih =>
    rw [List.foldl_cons, ih]
    by_cases hm : (x, y) ∈ rest ∧ isYellow (src.pix x y)
    · rw [if_pos hm, if_pos ⟨List.mem_cons_of_mem c hm.1, hm.2⟩]
    · rw [if_neg hm, interpStep_pix]
      by_cases hc : (x, y) = c ∧ isYellow (src.pix c.1 c.2)
      · have hx1 : x = c.1 := congrArg Prod.fst hc.1
        have hy1 : y = c.2 := congrArg Prod.snd hc.1
        rw [if_pos hc,
          if_pos ⟨List.mem_cons.2 (Or.inl hc.1), by rw [hx1, hy1]; exact hc.2⟩]
        rw [hx1, hy1]
      · rw [if_neg hc, if_neg]
        intro hcon
        rcases List.mem_cons.1 hcon.1 with heq | hmem
        · apply hc
          refine ⟨heq, ?_⟩
          have hx1 : x = c.1 := congrArg Prod.fst heq
          have hy1 : y = c.2 := congrArg Prod.snd heq
          rw [← hx1, ← hy1]
          exact hcon.2
        · exact hm ⟨hmem, hcon.2⟩

theorem mem_scanOrder (w h x y : Nat) : (x, y) ∈ scanOrder w h ↔ x < w ∧ y < h := by
  unfold scanOrder
  simp only [List.mem_flatMap, List.mem_map, List.mem_range, Prod.mk.injEq]
  constructor
  · rintro ⟨b, hb, c, hc, hcx, hby⟩
    rw [← hcx, ← hby]
    exact ⟨hc, hb⟩
  · rintro ⟨h1, h2⟩
    exact ⟨y, h2, x, h1, rfl, rfl⟩

/-- Pointwise description of interpolate_yellow_pixels on the image domain. -/
theorem interpolate_pix (img : Image) (x y : Nat) (hx : x < img.width)
    (hy : y < img.height) :
    (interpolate_yellow_pixels img).pix x y =
      if isYellow (img.pix x y) then interpValue img x y else img.pix x y := by
  unfold interpolate_yellow_pixels interpLoop
  rw [interpLoop_pix]
  by_cases hyel : isYellow (img.pix x y)
  · rw [if_pos ⟨(mem_scanOrder _ _ _ _).2 ⟨hx, hy⟩, hyel⟩, if_pos hyel]
  · rw [if_neg (fun hcon => hyel hcon.2), if_neg hyel]

/-- Every neighbor offset is within the 3x3 window and is not (0, 0). -/
theorem neighborOffsets_bounds :
    ∀ d ∈ neighborOffsets,
      -1 ≤ d.1 ∧ d.1 ≤ 1 ∧ -1 ≤ d.2 ∧ d.2 ≤ 1 ∧ ¬(d.1 = 0 ∧ d.2 = 0) := by
  decide

/-- Characterization of the collected neighbor list: its members are exactly
the pixels of the in-bounds, non-center, non-yellow positions of the 3x3
window around (x, y). -/
theorem mem_nonYellowNeighbors (img : Image) (x y : Nat) (p : Pixel) :
    p ∈ nonYellowNeighbors img x y ↔
      ∃ nx, nx < img.width ∧ ∃ ny, ny < img.height ∧ ¬(nx = x ∧ ny = y) ∧
        (nx : Int) ≤ (x : Int) + 1 ∧ (x : Int) ≤ (nx : Int) + 1 ∧
        (ny : Int) ≤ (y : Int) + 1 ∧ (y : Int) ≤ (ny : Int) + 1 ∧
        ¬ isYellow (img.pix nx ny) ∧ p = img.pix nx ny := by
  unfold nonYellowNeighbors
  rw [List.mem_filterMap]
  constructor
  · rintro ⟨d, hd, hfd⟩
    obtain ⟨hb1, hb2, hb3, hb4, hb5⟩ := neighborOffsets_bounds d hd
    by_cases hg : 0 ≤ (x : Int) + d.1 ∧ (x : Int) + d.1 < (img.width : Int) ∧
        0 ≤ (y : Int) + d.2 ∧ (y : Int) + d.2 < (img.height : Int)
    · rw [if_pos hg] at hfd
      by_cases hyel : isYellow (img.pix ((x : Int) + d.1).toNat ((y : Int) + d.2).toNat)
      · rw [if_pos hyel] at hfd
        exact absurd hfd (by simp)
      · rw [if_neg hyel] at hfd
        obtain ⟨hg1, hg2, hg3, hg4⟩ := hg
        refine ⟨((x : Int) + d.1).toNat, by omega, ((y : Int) + d.2).toNat, by omega,
          by omega, by omega, by omega, by omega, by omega, hyel, ?_⟩
        exact (Option.some.inj hfd).symm
    · rw [if_neg hg] at hfd
      exact absurd hfd (by simp)
  · rintro ⟨nx, hnx, ny, hny, hne, hd1, hd2, hd3, hd4, hnyel, hp⟩
    refine ⟨((nx : Int) - (x : Int), (ny : Int) - (y : Int)), ?_, ?_⟩
    · unfold neighborOffsets
      simp only [List.mem_cons, List.not_mem_nil, or_false, Prod.mk.injEq]
      omega
    · have hxe : (x : Int) + ((nx : Int) - (x : Int)) = (nx : Int) := by ring
      have hye : (y : Int) + ((ny : Int) - (y : Int)) = (ny : Int) := by ring
      rw [hxe, hye, Int.toNat_natCast, Int.toNat_natCast,
        if_pos ⟨by omega, by omega, by omega, by omega⟩, if_neg hnyel, hp]

/-- Two images of equal dimensions that agree on the 3x3 window around
(x, y) collect the same neighbor list there. -/
theorem nonYellowNeighbors_congr (img1 img2 : Image) (x y : Nat)
    (hw : img2.width = img1.width) (hh : img2.height = img1.height)
    (hag : agreeNear img1 img2 x y) :
    nonYellowNeighbors img2 x y = nonYellowNeighbors img1 x y := by
  unfold nonYellowNeighbors
  apply List.filterMap_congr
  intro d hd
  obtain ⟨hb1, hb2, hb3, hb4, _⟩ := neighborOffsets_bounds d hd
  rw [hw, hh]
  by_cases hg : 0 ≤ (x : Int) + d.1 ∧ (x : Int) + d.1 < (img1.width : Int) ∧
      0 ≤ (y : Int) + d.2 ∧ (y : Int) + d.2 < (img1.height : Int)
  · obtain ⟨hg1, hg2, hg3, hg4⟩ := hg
    have hpix : img1.pix ((x : Int) + d.1).toNat ((y : Int) + d.2).toNat =
        img2.pix ((x : Int) + d.1).toNat ((y : Int) + d.2).toNat :=
      hag _ (by omega) _ (by omega) (by omega) (by omega) (by omega) (by omega)
    rw [hpix]
  · rw [if_neg hg, if_neg hg]

/-- The value computed for a pixel depends only on the 3x3 window of the
source around it. -/
theorem interpValue_congr (img1 img2 : Image) (x y : Nat)
    (hw : img2.width = img1.width) (hh : img2.height = img1.height)
    (hag : agreeNear img1 img2 x y) :
    interpValue img2 x y = interpValue img1 x y := by
  unfold interpValue
  rw [nonYellowNeighbors_congr img1 img2 x y hw hh hag]

theorem maskHeaderLogo_pix_pos (img : Image) (x y : Nat)
    (hm : inMaskRegion img x y) : (maskHeaderLogo img).pix x y = ⟨0, 0, 0, 0⟩ := by
  show (if inMaskRegion img x y then (⟨0, 0, 0, 0⟩ : Pixel) else img.pix x y) = _
  rw [if_pos hm]

theorem maskHeaderLogo_pix_neg (img : Image) (x y : Nat)
    (hm : ¬ inMaskRegion img x y) : (maskHeaderLogo img).pix x y = img.pix x y := by
  show (if inMaskRegion img x y then (⟨0, 0, 0, 0⟩ : Pixel) else img.pix x y) = _
  rw [if_neg hm]

theorem makeBackgroundTransparent_pix (img : Image) (x y : Nat) :
    (makeBackgroundTransparent img).pix x y =
      if isBackground (img.pix x y) then ⟨0, 0, 0, 0⟩ else img.pix x y :=
  rfl

/-- C1 counterexample: the claim that the extent is the min/max envelope of
all four transformed corners fails on the code at a concrete non
axis-aligned transformation: the code transforms only the two corners
(min_x, min_y) and (max_x, max_y), and on the unit box under a 45 degree
rotation-like map its result differs from the four-corner envelope. -/
theorem c1_counterexample :
    get_radar_extent_for_geostationary shear45 0 1 1 (-1) 1 1 ≠
      fourCornerEnvelope shear45 (radarBounds 0 1 1 (-1) 1 1) := by
  intro h
  have h2 := congrArg BBox.min_y h
  simp only [get_radar_extent_for_geostationary, fourCornerEnvelope, radarBounds,
    shear45] at h2
  norm_num [min_def, max_def] at h2

/-- C1 (amended): for every bounding box read from the radar geotransform,
the projection bridge transforms exactly the two corners (min_x, min_y) and
(max_x, max_y) individually and returns the normalized min/max envelope of
those two transformed points; the two remaining corners are never consulted
(any transformation agreeing on the two used corners yields the same
extent). -/
theorem c1_two_corner_envelope (T T2 : ℚ × ℚ → ℚ × ℚ)
    (gt0 gt1 gt3 gt5 : ℚ) (cols rows : Nat)
    (h1 : T2 (gt0, gt3 + gt5 * (rows : ℚ)) = T (gt0, gt3 + gt5 * (rows : ℚ)))
    (h2 : T2 (gt0 + gt1 * (cols : ℚ), gt3) = T (gt0 + gt1 * (cols : ℚ), gt3)) :
    (get_radar_extent_for_geostationary T gt0 gt1 gt3 gt5 cols rows).min_x =
      min (T (gt0, gt3 + gt5 * (rows : ℚ))).1 (T (gt0 + gt1 * (cols : ℚ), gt3)).1 ∧
    (get_radar_extent_for_geostationary T gt0 gt1 gt3 gt5 cols rows).max_x =
      max (T (gt0, gt3 + gt5 * (rows : ℚ))).1 (T (gt0 + gt1 * (cols : ℚ), gt3)).1 ∧
    (get_radar_extent_for_geostationary T gt0 gt1 gt3 gt5 cols rows).min_y =
      min (T (gt0, gt3 + gt5 * (rows : ℚ))).2 (T (gt0 + gt1 * (cols : ℚ), gt3)).2 ∧
    (get_radar_extent_for_geostationary T gt0 gt1 gt3 gt5 cols rows).max_y =
      max (T (gt0, gt3 + gt5 * (rows : ℚ))).2 (T (gt0 + gt1 * (cols : ℚ), gt3)).2 ∧
    (get_radar_extent_for_geostationary T gt0 gt1 gt3 gt5 cols rows).min_x ≤
      (get_radar_extent_for_geostationary T gt0 gt1 gt3 gt5 cols rows).max_x ∧
    (get_radar_extent_for_geostationary T gt0 gt1 gt3 gt5 cols rows).min_y ≤
      (get_radar_extent_for_geostationary T gt0 gt1 gt3 gt5 cols rows).max_y ∧
    get_radar_extent_for_geostationary T2 gt0 gt1 gt3 gt5 cols rows =
      get_radar_extent_for_geostationary T gt0 gt1 gt3 gt5 cols rows := by
  refine ⟨rfl, rfl, rfl, rfl, min_le_max, min_le_max, ?_⟩
  simp only [get_radar_extent_for_geostationary, radarBounds]
  rw [h1, h2]

theorem c1_witness :
    (get_radar_extent_for_geostationary shear45 0 1 1 (-1) 1 1).min_x ≤
      (get_radar_extent_for_geostationary shear45 0 1 1 (-1) 1 1).max_x :=
  (c1_two_corner_envelope shear45 shear45 0 1 1 (-1) 1 1 rfl rfl).2.2.2.2.1

/-- C2 counterexample: with calibration parameters available for band 6
only, extract_water_vapor_bands returns normally with band 5 silently
omitted from the outputs; no MissingCalibration failure is surfaced. -/
theorem c2_counterexample :
    calOnly6 5 = none ∧
    (extract_water_vapor_bands calOnly6 (fun _ => [0])).map Prod.fst = [6] := by
  exact ⟨rfl, rfl⟩

/-- C2 (amended): for every requested band index, if no calibration
parameters are supplied for that band, the band is skipped: it contributes
no entry to the returned output list, and the function returns normally
(no failure value exists to surface); a band with calibration parameters
contributes its calibrated raster. -/
theorem c2_skip_behavior (cal : Nat → Option (ℚ × ℚ)) (bands : Nat → List ℚ)
    (b : Nat) (hb : b ∈ wvBandNumbers) :
    (cal b = none → ∀ r, (b, r) ∉ extract_water_vapor_bands cal bands) ∧
    (∀ offset slope, cal b = some (offset, slope) →
      (b, calibrateBand offset slope (bands b)) ∈ extract_water_vapor_bands cal bands) := by
  constructor
  · intro hnone r hr
    unfold extract_water_vapor_bands at hr
    rcases List.mem_filterMap.1 hr with ⟨b2, _, heq⟩
    cases hcb : cal b2 with
    | none =>
      rw [hcb] at heq
      exact Option.noConfusion heq
    | some p =>
      rw [hcb] at heq
      have hbb : b2 = b := congrArg Prod.fst (Option.some.inj heq)
      rw [hbb] at hcb
      rw [hnone] at hcb
      exact Option.noConfusion hcb
  · intro offset slope hsome
    unfold extract_water_vapor_bands
    refine List.mem_filterMap.2 ⟨b, hb, ?_⟩
    rw [hsome]

theorem c2_witness :
    (6, calibrateBand 1 2 [(0 : ℚ)]) ∈
      extract_water_vapor_bands calOnly6 (fun _ => [(0 : ℚ)]) :=
  (c2_skip_behavior calOnly6 (fun _ => [(0 : ℚ)]) 6 (by decide)).2 1 2 rfl

/-- C3: the band calibration is the linear map v to offset + slope * v
elementwise, and on a raster of all-zero raw values every calibrated value
equals offset. -/
theorem c3_calibration_linear (offset slope v : ℚ) (raw : List ℚ)
    (hzero : ∀ u ∈ raw, u = 0) :
    calibrateValue offset slope v = offset + slope * v ∧
    ∀ w ∈ calibrateBand offset slope raw, w = offset := by
  have hval : ∀ u : ℚ, calibrateValue offset slope u = offset + slope * u := by
    intro u
    unfold calibrateValue gdalScale
    field_simp
    ring
  refine ⟨hval v, ?_⟩
  intro w hw
  unfold calibrateBand at hw
  rcases List.mem_map.1 hw with ⟨u, hu, hwu⟩
  rw [← hwu, hval u, hzero u hu, mul_zero, add_zero]

theorem c3_witness : calibrateValue 3 2 5 = 3 + 2 * 5 :=
  (c3_calibration_linear 3 2 5 [0, 0] (by decide)).1

/-- C7 (spec-modelled): a bivariate degree-3 polynomial has
(3+1)(3+2)/2 = 10 coefficients, and for every control-point set with fewer
than that many points the fit fails with InsufficientControlPoints — in
particular for fewer than 6 points; no lower-degree surface is fitted. -/
theorem c7_insufficient_points (gcps : List ControlPoint)
    (h : gcps.length < polyTermCount 3) :
    polyTermCount 3 = 10 ∧
    (∀ x y : ℚ, (polyMonomials 3 x y).length = 10) ∧
    fitPolynomial 3 gcps = Except.error GCPFitError.InsufficientControlPoints ∧
    (gcps.length < 6 →
      fitPolynomial 3 gcps = Except.error GCPFitError.InsufficientControlPoints) := by
  have hfit : fitPolynomial 3 gcps = Except.error GCPFitError.InsufficientControlPoints := by
    unfold fitPolynomial
    rw [if_pos h]
  exact ⟨rfl, fun x y => rfl, hfit, fun _ => hfit⟩

theorem c7_witness :
    fitPolynomial 3 gcps5 = Except.error GCPFitError.InsufficientControlPoints :=
  (c7_insufficient_points gcps5 (by decide)).2.2.1

/-- The hardcoded 39-point QGIS control point set is accepted by the fit. -/
theorem qgis_gcps_fit_succeeds :
    qgis_gcps.length = 39 ∧
    fitPolynomial 3 qgis_gcps =
      Except.ok (qgis_gcps.map fun g => polyMonomials 3 g.px g.py) := by
  constructor
  · rfl
  · unfold fitPolynomial
    rw [if_neg (by decide)]

/-- C8: the satellite subsetter expands the target bounding box by exactly
50000 projection units (50 km) on each of the four sides to form the crop
window passed as projWin. -/
theorem c8_subset_margin (extent : BBox) :
    extent.min_x - (subset_meteosat_data extent).ulx = 50000 ∧
    (subset_meteosat_data extent).lrx - extent.max_x = 50000 ∧
    extent.min_y - (subset_meteosat_data extent).lry = 50000 ∧
    (subset_meteosat_data extent).uly - extent.max_y = 50000 := by
  refine ⟨?_, ?_, ?_, ?_⟩ <;> (simp only [subset_meteosat_data]; ring)

/-- C9 counterexample: under the matplotlib default zorders, neither script
renders the layers in the claimed order satellite, polygons, radar,
points/labels: in both the radar raster is drawn below the polygon
boundaries. -/
theorem c9_counterexample :
    renderOrder drawCalls_8 ≠
      [LayerKind.satellite, LayerKind.vectorPolygons, LayerKind.radarRaster,
       LayerKind.vectorPoints, LayerKind.vectorLabels] ∧
    renderOrder drawCalls_9 ≠
      [LayerKind.satellite, LayerKind.vectorPolygons, LayerKind.radarRaster,
       LayerKind.vectorPoints, LayerKind.vectorLabels] := by
  decide

/-- C9 (amended): both versions of create_enhanced_image render the layers
bottom to top as satellite band, radar raster, vector polygon boundaries,
vector points, vector labels. -/
theorem c9_render_order :
    renderOrder drawCalls_8 =
      [LayerKind.satellite, LayerKind.radarRaster, LayerKind.vectorPolygons,
       LayerKind.vectorPoints, LayerKind.vectorLabels] ∧
    renderOrder drawCalls_9 =
      [LayerKind.satellite, LayerKind.radarRaster, LayerKind.vectorPolygons,
       LayerKind.vectorPoints, LayerKind.vectorLabels] := by
  decide

/-- C4: on the image domain, every marker-classified pixel is replaced by
the channel-wise average of its qualifying neighbors, a marker pixel with
no qualifying neighbor becomes fully transparent, non-marker pixels are
unaffected, and the qualifying neighbors are exactly the pixels of the
in-bounds, non-center, non-marker positions of the 3x3 window. -/
theorem c4_marker_interpolation (img : Image) (x y : Nat)
    (hx : x < img.width) (hy : y < img.height) :
    (isYellow (img.pix x y) →
      (nonYellowNeighbors img x y = [] →
        (interpolate_yellow_pixels img).pix x y = ⟨0, 0, 0, 0⟩) ∧
      (nonYellowNeighbors img x y ≠ [] →
        (interpolate_yellow_pixels img).pix x y = avgPixel (nonYellowNeighbors img x y))) ∧
    (¬ isYellow (img.pix x y) →
      (interpolate_yellow_pixels img).pix x y = img.pix x y) ∧
    (∀ p : Pixel,
      p ∈ nonYellowNeighbors img x y ↔
        ∃ nx, nx < img.width ∧ ∃ ny, ny < img.height ∧ ¬(nx = x ∧ ny = y) ∧
          (nx : Int) ≤ (x : Int) + 1 ∧ (x : Int) ≤ (nx : Int) + 1 ∧
          (ny : Int) ≤ (y : Int) + 1 ∧ (y : Int) ≤ (ny : Int) + 1 ∧
          ¬ isYellow (img.pix nx ny) ∧ p = img.pix nx ny) := by
  refine ⟨?_, ?_, fun p => mem_nonYellowNeighbors img x y p⟩
  · intro hyel
    rw [interpolate_pix img x y hx hy, if_pos hyel]
    constructor
    · intro hnil
      unfold interpValue
      rw [hnil]
      rfl
    · intro hne
      unfold interpValue
      cases hns : nonYellowNeighbors img x y with
      | nil => exact absurd hns hne
      | cons a l => rfl
  · intro hnyel
    rw [interpolate_pix img x y hx hy, if_neg hnyel]

theorem c4_witness :
    (interpolate_yellow_pixels ex3).pix 1 1 = avgPixel (nonYellowNeighbors ex3 1 1) :=
  ((c4_marker_interpolation ex3 1 1 (by decide) (by decide)).1 (by decide)).2 (by decide)

/-- C5 counterexample: on a concrete 3x3 image the interpolation output
still contains a marker-classified pixel (the average of the non-marker
neighbors is itself marker-classified), and re-running the interpolation on
that output changes it again. -/
theorem c5_counterexample :
    isYellow ((interpolate_yellow_pixels ex3).pix 1 1) ∧
    (interpolate_yellow_pixels (interpolate_yellow_pixels ex3)).pix 1 1 ≠
      (interpolate_yellow_pixels ex3).pix 1 1 := by
  decide

/-- C5 (amended): the interpolation output may retain marker-classified
pixels, so re-running it on its own output is not a no-op in general; the
interpolation is a no-op on any image that contains no marker-classified
pixels, so in particular re-running is a no-op whenever the first output
contains none. -/
theorem c5_no_markers_noop (img : Image)
    (hno : ∀ x, x < img.width → ∀ y, y < img.height → ¬ isYellow (img.pix x y)) :
    ∀ x, x < img.width → ∀ y, y < img.height →
      (interpolate_yellow_pixels img).pix x y = img.pix x y := by
  intro x hx y hy
  rw [interpolate_pix img x y hx hy, if_neg (hno x hx y hy)]

theorem c5_witness :
    (interpolate_yellow_pixels exBlue).pix 0 0 = exBlue.pix 0 0 :=
  c5_no_markers_noop exBlue (by decide) 0 (by decide) 0 (by decide)

/-- C6: on an input with no background-colored and no marker-colored
pixels, clean_radar_image equals the input after masking the header and
logo rectangles and cropping the footer, pixel for pixel. -/
theorem c6_clean_passthrough (img : Image)
    (h : ∀ x, x < img.width → ∀ y, y < img.height →
      ¬ isBackground (img.pix x y) ∧ ¬ isYellow (img.pix x y)) :
    (clean_radar_image img).width = (cropFooter (maskHeaderLogo img)).width ∧
    (clean_radar_image img).height = (cropFooter (maskHeaderLogo img)).height ∧
    ∀ x, x < img.width → ∀ y, y < footerStart img.height →
      (clean_radar_image img).pix x y = (cropFooter (maskHeaderLogo img)).pix x y := by
  refine ⟨interpolate_width _, interpolate_height _, ?_⟩
  intro x hx y hy2
  have hyh : y < img.height := by
    unfold footerStart at hy2
    omega
  by_cases hm : inMaskRegion img x y
  · have hJ : (cropFooter (maskHeaderLogo img)).pix x y = ⟨0, 0, 0, 0⟩ :=
      maskHeaderLogo_pix_pos img x y hm
    have hint : (interpolate_yellow_pixels (cropFooter (maskHeaderLogo img))).pix x y =
        (cropFooter (maskHeaderLogo img)).pix x y := by
      rw [interpolate_pix (cropFooter (maskHeaderLogo img)) x y hx hy2,
        if_neg (by rw [hJ]; decide)]
    unfold clean_radar_image
    rw [makeBackgroundTransparent_pix, hint, hJ, if_pos (by decide)]
  · have hJ : (cropFooter (maskHeaderLogo img)).pix x y = img.pix x y :=
      maskHeaderLogo_pix_neg img x y hm
    obtain ⟨hnb, hny⟩ := h x hx y hyh
    have hint : (interpolate_yellow_pixels (cropFooter (maskHeaderLogo img))).pix x y =
        (cropFooter (maskHeaderLogo img)).pix x y := by
      rw [interpolate_pix (cropFooter (maskHeaderLogo img)) x y hx hy2,
        if_neg (by rw [hJ]; exact hny)]
    unfold clean_radar_image
    rw [makeBackgroundTransparent_pix, hint, hJ, if_neg hnb]

theorem c6_witness :
    (clean_radar_image exClean).pix 0 0 = (cropFooter (maskHeaderLogo exClean)).pix 0 0 :=
  (c6_clean_passthrough exClean (by decide)).2.2 0 (by decide) 0 (by decide)

/-- C10: the interpolation is a deterministic, scan-order-independent
function of its input: running the loop in any permutation of the scan
order yields the same pixels, and the output at (x, y) depends only on the
input values on the 3x3 window around (x, y). -/
theorem c10_scan_order_independent (img : Image) (order : List (Nat × Nat))
    (hperm : order.Perm (scanOrder img.width img.height))
    (x y : Nat) (hx : x < img.width) (hy : y < img.height) :
    (interpLoop img order).pix x y = (interpolate_yellow_pixels img).pix x y ∧
    ∀ img2 : Image, img2.width = img.width → img2.height = img.height →
      agreeNear img img2 x y →
      (interpolate_yellow_pixels img2).pix x y = (interpolate_yellow_pixels img).pix x y := by
  constructor
  · unfold interpolate_yellow_pixels interpLoop
    rw [interpLoop_pix, interpLoop_pix]
    simp only [hperm.mem_iff]
  · intro img2 hw hh hag
    have hx2 : x < img2.width := by
      rw [hw]
      exact hx
    have hy2 : y < img2.height := by
      rw [hh]
      exact hy
    rw [interpolate_pix img x y hx hy, interpolate_pix img2 x y hx2 hy2]
    have hc : img2.pix x y = img.pix x y :=
      (hag x hx y hy (by omega) (by omega) (by omega) (by omega)).symm
    rw [hc, interpValue_congr img img2 x y hw hh hag]

theorem c10_witness :
    (interpLoop exBlue ((scanOrder 2 2).reverse)).pix 0 0 =
      (interpolate_yellow_pixels exBlue).pix 0 0 ∧
    (interpolate_yellow_pixels exBlue).pix 0 0 =
      (interpolate_yellow_pixels exBlue).pix 0 0 := by
  have h := c10_scan_order_independent exBlue ((scanOrder 2 2).reverse)
    (List.reverse_perm (scanOrder 2 2)) 0 0 (by decide) (by decide)
  exact ⟨h.1, h.2 exBlue rfl rfl (fun nx h1 ny h2 h3 h4 h5 h6 => rfl)⟩

end Meteo
